import Mathlib

/-!
Shallow embedding of `src/rheeder/rheeder.py`: a one-method interface
`read(path) -> contents` with five concrete variants (local filesystem,
S3 object storage, a GitHub contents API, a cloned git working tree, and
an identity pass-through).  External collaborators — the filesystem, the
boto3 client, the PyGithub repository handle, the gitpython repository
handle and the stdlib base64 decoder — are caller-supplied black boxes,
modelled as function parameters.  Python exceptions are modelled with
`Except`.
-/

set_option autoImplicit false

namespace Rheeder

/-- Python exceptions that can surface through the readers. -/
inductive Err where
  | fileNotFoundError (path : String)
  | notImplementedError
  | typeError (msg : String)
  | attributeError (msg : String)
  | clientError (msg : String)
  | binasciiError (msg : String)
  | unicodeDecodeError (msg : String)
  deriving DecidableEq, Repr

/-- Python `s.startswith(pre)`: `pre` is a prefix of `s`. -/
def str_startswith (s pre : String) : Bool :=
  List.isPrefixOf pre.data s.data

/-- Python `s.endswith(suf)`: `suf` is a suffix of `s`. -/
def str_endswith (s suf : String) : Bool :=
  List.isSuffixOf suf.data s.data

/-- Python `os.path.join(a, b)` (posixpath, two-argument case): if `b` is
absolute the result is `b`; otherwise `b` is appended to `a`, inserting a
separator unless `a` is empty or already ends with one. -/
def os_path_join (a b : String) : String :=
  if str_startswith b "/" then b
  else if a = "" then a ++ b
  else if str_endswith a "/" then a ++ b
  else a ++ "/" ++ b

/-- A black-box local filesystem: `disk p` is the UTF-8 decoded text of
the file at path `p`, or `none` when no file exists there. -/
abbrev Disk := String → Option String

/-- Python `open(p, encoding="utf-8")` followed by `f.read()` against a
black-box filesystem: yields the decoded text when the file exists and
raises `FileNotFoundError` when it does not. -/
def openRead (disk : Disk) (p : String) : Except Err String :=
  match disk p with
  | some contents => .ok contents
  | none => .error (.fileNotFoundError p)

/-- The abstract base class `ReaderImp`.  It holds no data. -/
structure ReaderImp

/-- `ReaderImp.read`: the base class method body is `raise
NotImplementedError`. -/
def ReaderImp.read (_self : ReaderImp) (_path : String) : Except Err String :=
  .error .notImplementedError

/-- `LocalReaderImp`: read from a local directory, configured with a root
directory. -/
structure LocalReaderImp where
  path_prefix : String
  deriving DecidableEq, Repr

/-- `LocalReaderImp.read`: opens `os.path.join(self.path_prefix, path)`
in text mode with UTF-8 decoding, reads the full contents and returns
them. -/
def LocalReaderImp.read (disk : Disk) : LocalReaderImp → String → Except Err String
  | .mk pp, path => openRead disk (os_path_join pp path)

/-- A boto3 `get_object` response: `response["Body"].read()` yields these
raw bytes. -/
structure S3Response where
  body : List Nat
  deriving DecidableEq, Repr

/-- `S3ReaderImp`: read from S3.  Holds the caller-supplied boto3 client,
modelled as a black-box function from bucket and key to a response or a
client error, and the configured bucket. -/
structure S3ReaderImp where
  client : String → String → Except Err S3Response
  bucket : String

/-- `S3ReaderImp.read`: issues `self.client.get_object(Bucket=self.bucket,
Key=path)` and returns `response["Body"].read()`. -/
def S3ReaderImp.read : S3ReaderImp → String → Except Err (List Nat)
  | .mk client bucket, path =>
    match client bucket path with
    | .ok response => .ok (S3Response.body response)
    | .error e => .error e

/-- `S3ReaderImp.read` instrumented with the trace of get-object requests
the call issues: the method body contains exactly one call,
`get_object(Bucket=self.bucket, Key=path)`. -/
def S3ReaderImp.readTraced : S3ReaderImp → String → Except Err (List Nat) × List (String × String)
  | .mk client bucket, path =>
    (S3ReaderImp.read (.mk client bucket) path, [(bucket, path)])

/-- A PyGithub `ContentFile`: carries the base64-encoded `content`
field. -/
structure ContentFile where
  content : String
  deriving DecidableEq, Repr

/-- The value `Repository.get_contents(path)` produces: a single
`ContentFile` when `path` is a file, or a list of them when it is a
directory. -/
inductive ContentsResult where
  | file (cf : ContentFile)
  | dir (cfs : List ContentFile)
  deriving DecidableEq, Repr

/-- A caller-supplied PyGithub repository handle, modelled as a black-box
`get_contents` operation that may raise (missing path, API failure). -/
structure GithubRepo where
  get_contents : String → Except Err ContentsResult

/-- Python attribute access `content_file.content`: on a single
`ContentFile` it yields the `content` field; on a list (a directory
result) it raises `AttributeError`. -/
def contentAttr : ContentsResult → Except Err String
  | .file cf => .ok (ContentFile.content cf)
  | .dir _ => .error (.attributeError "list object has no attribute content")

/-- The stdlib collaborator `base64.b64decode`, modelled as a black box:
returns decoded bytes or raises. -/
abbrev B64Decode := String → Except Err (List Nat)

/-- `GithubGetContentsReaderImp`: read from a GitHub repo via the
contents API, configured with a caller-supplied repository handle. -/
structure GithubGetContentsReaderImp where
  repo : GithubRepo

/-- `GithubGetContentsReaderImp.read`: `content_file =
self.repo.get_contents(path)` followed by `return
base64.b64decode(content_file.content)`. -/
def GithubGetContentsReaderImp.read (b64decode : B64Decode) :
    GithubGetContentsReaderImp → String → Except Err (List Nat)
  | .mk repo, path =>
    match GithubRepo.get_contents repo path with
    | .error e => .error e
    | .ok content_file =>
      match contentAttr content_file with
      | .error e => .error e
      | .ok c => b64decode c

/-- A gitpython `Repo` handle: exposes the working tree root. -/
structure GitRepo where
  working_tree_dir : String
  deriving DecidableEq, Repr

/-- Python `os.path.join(a, b, encoding="utf-8")`: `os.path.join` takes
no `encoding` keyword argument, so the call raises `TypeError` before
producing any path. -/
def os_path_join_kw_encoding (_a _b : String) : Except Err String :=
  .error (.typeError "join got an unexpected keyword argument encoding")

/-- Entering a `with` block on a plain string: a `str` is not a context
manager, so this would raise `AttributeError`.  In `read` below it is
never reached, because the join call raises first. -/
def withEnterStr (_disk : Disk) (_f : String) : Except Err String :=
  .error (.attributeError "str object is not a context manager")

/-- `GithubCloneRepoReaderImp`: read from the working tree of a cloned
repo, configured with a caller-supplied gitpython handle. -/
structure GithubCloneRepoReaderImp where
  repo : GitRepo
  deriving DecidableEq, Repr

/-- `GithubCloneRepoReaderImp.read`: the source body is `with
os.path.join(self.repo.working_tree_dir, path, encoding="utf-8") as f:
contents = f.read()`.  The join expression is evaluated first and
raises `TypeError`; the file at the joined path is never opened. -/
def GithubCloneRepoReaderImp.read (disk : Disk) :
    GithubCloneRepoReaderImp → String → Except Err String
  | .mk (.mk wtd), path =>
    match os_path_join_kw_encoding wtd path with
    | .error e => .error e
    | .ok f => withEnterStr disk f

/-- `TransparentReaderImp`: read contents by passing them through. -/
structure TransparentReaderImp

/-- `TransparentReaderImp.read`: the body is `return path`; it cannot
raise. -/
def TransparentReaderImp.read (_self : TransparentReaderImp) (path : String) : Except Err String :=
  .ok path

/-- State-passing translation of `LocalReaderImp.read`: the method body
binds only locals (`f`, `contents`) and assigns no field of `self`,
so the receiver is returned unchanged alongside the result. -/
def LocalReaderImp.readSt (disk : Disk) :
    LocalReaderImp → String → Except Err String × LocalReaderImp
  | .mk pp, path =>
    match openRead disk (os_path_join pp path) with
    | .ok contents => (.ok contents, .mk pp)
    | .error e => (.error e, .mk pp)

/-- State-passing translation of `S3ReaderImp.read`: the body binds only
the local `response` and assigns no field of `self`. -/
def S3ReaderImp.readSt : S3ReaderImp → String → (Except Err (List Nat)) × S3ReaderImp
  | .mk client bucket, path =>
    match client bucket path with
    | .ok response => (.ok (S3Response.body response), .mk client bucket)
    | .error e => (.error e, .mk client bucket)

/-- State-passing translation of `GithubGetContentsReaderImp.read`: the
body binds only the local `content_file` and assigns no field of
`self`. -/
def GithubGetContentsReaderImp.readSt (b64decode : B64Decode) :
    GithubGetContentsReaderImp → String → (Except Err (List Nat)) × GithubGetContentsReaderImp
  | .mk repo, path =>
    match GithubRepo.get_contents repo path with
    | .error e => (.error e, .mk repo)
    | .ok content_file =>
      match contentAttr content_file with
      | .error e => (.error e, .mk repo)
      | .ok c => (b64decode c, .mk repo)

/-- State-passing translation of `GithubCloneRepoReaderImp.read`: the
body assigns no field of `self`. -/
def GithubCloneRepoReaderImp.readSt (disk : Disk) :
    GithubCloneRepoReaderImp → String → (Except Err String) × GithubCloneRepoReaderImp
  | .mk (.mk wtd), path =>
    match os_path_join_kw_encoding wtd path with
    | .error e => (.error e, .mk (.mk wtd))
    | .ok f => (withEnterStr disk f, .mk (.mk wtd))

/-- State-passing translation of `TransparentReaderImp.read`: the body is
a bare return and assigns no field of `self`. -/
def TransparentReaderImp.readSt (self : TransparentReaderImp) (path : String) :
    (Except Err String) × TransparentReaderImp :=
  (.ok path, self)

/-- C1: for every input `x`, `TransparentReader().read(x)` returns `x`
itself, unchanged, and the call never raises any error. -/
theorem transparent_read_identity (t : TransparentReaderImp) (x : String) :
    TransparentReaderImp.read t x = Except.ok x := rfl

/-- C2: `LocalReader(root).read(p)` returns exactly the UTF-8 text stored
at the joined path `os.path.join(root, p)` when that file exists, and
raises `FileNotFoundError` for that path when it does not. -/
theorem local_read_spec (disk : Disk) (root p : String) :
    (∀ c, LocalReaderImp.read disk (.mk root) p = Except.ok c ↔
        disk (os_path_join root p) = some c) ∧
    (LocalReaderImp.read disk (.mk root) p =
        Except.error (Err.fileNotFoundError (os_path_join root p)) ↔
      disk (os_path_join root p) = none) := by
  cases h : disk (os_path_join root p) <;>
    simp [LocalReaderImp.read, openRead, h]

/-- C3 fails on the code: with a working tree rooted at `/repo` whose
file `a.txt` holds `hello`, `ClonedRepoReader.read "a.txt"` does not
return `hello`; it raises the `TypeError` produced by the misused
`os.path.join(working_tree_dir, path, encoding="utf-8")` call, before
any file is opened. -/
theorem cloned_read_raises_on_existing_file :
    GithubCloneRepoReaderImp.read
        (fun s => if s = "/repo/a.txt" then some "hello" else none)
        (.mk (.mk "/repo")) "a.txt" =
      Except.error (Err.typeError "join got an unexpected keyword argument encoding") := rfl

/-- C4: `ObjectStoreReader(client, bucket).read(key)` issues exactly one
get-object request, for `(bucket, key)`, and returns the response body
bytes unmodified, exactly as the client returned them. -/
theorem s3_read_spec (client : String → String → Except Err S3Response)
    (bucket key : String) :
    (S3ReaderImp.readTraced (.mk client bucket) key).2 = [(bucket, key)] ∧
    (S3ReaderImp.readTraced (.mk client bucket) key).1 =
      Except.map S3Response.body (client bucket key) := by
  refine ⟨rfl, ?_⟩
  cases h : client bucket key <;>
    simp [S3ReaderImp.readTraced, S3ReaderImp.read, h, Except.map]

/-- C5: `HostedRepoContentsReader(repo).read(path)` returns the
base64-decoded bytes of the single content object returned for `path`:
it succeeds with bytes `bs` exactly when `get_contents` yields a single
content file whose `content` field decodes to `bs`, and it fails with
exactly the error of the first failing step otherwise (missing path or
API error, directory result, decode failure). -/
theorem github_contents_read_spec (b64decode : B64Decode)
    (gc : String → Except Err ContentsResult) (path : String) :
    (∀ bs, GithubGetContentsReaderImp.read b64decode (.mk (.mk gc)) path = Except.ok bs ↔
        ∃ cf, gc path = Except.ok (ContentsResult.file cf) ∧
          b64decode (ContentFile.content cf) = Except.ok bs) ∧
    (∀ e, GithubGetContentsReaderImp.read b64decode (.mk (.mk gc)) path = Except.error e ↔
        (gc path = Except.error e ∨
         (∃ cr, gc path = Except.ok cr ∧ contentAttr cr = Except.error e) ∨
         (∃ cf, gc path = Except.ok (ContentsResult.file cf) ∧
           b64decode (ContentFile.content cf) = Except.error e))) := by
  constructor
  · intro bs
    cases h : gc path with
    | error e => simp [GithubGetContentsReaderImp.read, h]
    | ok cr =>
      cases cr with
      | file cf => simp [GithubGetContentsReaderImp.read, contentAttr, h]
      | dir cfs => simp [GithubGetContentsReaderImp.read, contentAttr, h]
  · intro e
    cases h : gc path with
    | error e₂ => simp [GithubGetContentsReaderImp.read, h, contentAttr]
    | ok cr =>
      cases cr with
      | file cf =>
        cases hb : b64decode (ContentFile.content cf) <;>
          simp [GithubGetContentsReaderImp.read, contentAttr, h, hb]
      | dir cfs => simp [GithubGetContentsReaderImp.read, contentAttr, h]

/-- C6: every reader propagates errors from its delegated calls to the
caller unchanged: `read` results in an error exactly when a delegated
step raised, and the error is that step's error, never caught, wrapped or
translated.  (The transparent variant performs no delegated call and
never raises.) -/
theorem error_propagation :
    (∀ (disk : Disk) (root p : String) (e : Err),
        LocalReaderImp.read disk (.mk root) p = Except.error e ↔
          openRead disk (os_path_join root p) = Except.error e) ∧
    (∀ (client : String → String → Except Err S3Response) (bucket key : String) (e : Err),
        S3ReaderImp.read (.mk client bucket) key = Except.error e ↔
          client bucket key = Except.error e) ∧
    (∀ (b64decode : B64Decode) (gc : String → Except Err ContentsResult) (path : String) (e : Err),
        GithubGetContentsReaderImp.read b64decode (.mk (.mk gc)) path = Except.error e ↔
          (gc path = Except.error e ∨
           (∃ cr, gc path = Except.ok cr ∧ contentAttr cr = Except.error e) ∨
           (∃ c, Except.bind (gc path) contentAttr = Except.ok c ∧
             b64decode c = Except.error e))) ∧
    (∀ (disk : Disk) (wtd path : String) (e : Err),
        GithubCloneRepoReaderImp.read disk (.mk (.mk wtd)) path = Except.error e ↔
          os_path_join_kw_encoding wtd path = Except.error e) ∧
    (∀ (t : TransparentReaderImp) (p : String),
        TransparentReaderImp.read t p = Except.ok p) := by
  refine ⟨?_, ?_, ?_, ?_, fun _ _ => rfl⟩
  · intro disk root p e
    exact Iff.rfl
  · intro client bucket key e
    cases h : client bucket key <;> simp [S3ReaderImp.read, h]
  · intro b64decode gc path e
    cases h : gc path with
    | error e₂ => simp [GithubGetContentsReaderImp.read, h, Except.bind]
    | ok cr =>
      cases cr with
      | file cf =>
        cases hb : b64decode (ContentFile.content cf) <;>
          simp [GithubGetContentsReaderImp.read, contentAttr, h, hb, Except.bind]
      | dir cfs =>
        simp [GithubGetContentsReaderImp.read, contentAttr, h, Except.bind]
  · intro disk wtd path e
    simp [GithubCloneRepoReaderImp.read, os_path_join_kw_encoding]

/-- C7: calling `read` (whether it returns or raises) leaves every
reader's configuration fields exactly as they were at construction: the
state-passing translation of each method returns the receiver
unchanged. -/
theorem readers_never_mutated :
    (∀ (disk : Disk) (r : LocalReaderImp) (p : String),
        (LocalReaderImp.readSt disk r p).2 = r) ∧
    (∀ (r : S3ReaderImp) (p : String), (S3ReaderImp.readSt r p).2 = r) ∧
    (∀ (b64decode : B64Decode) (r : GithubGetContentsReaderImp) (p : String),
        (GithubGetContentsReaderImp.readSt b64decode r p).2 = r) ∧
    (∀ (disk : Disk) (r : GithubCloneRepoReaderImp) (p : String),
        (GithubCloneRepoReaderImp.readSt disk r p).2 = r) ∧
    (∀ (r : TransparentReaderImp) (p : String),
        (TransparentReaderImp.readSt r p).2 = r) := by
  refine ⟨?_, ?_, ?_, ?_, fun _ _ => rfl⟩
  · intro disk r p
    obtain ⟨pp⟩ := r
    cases h : openRead disk (os_path_join pp p) <;> simp [LocalReaderImp.readSt, h]
  · intro r p
    obtain ⟨client, bucket⟩ := r
    cases h : client bucket p <;> simp [S3ReaderImp.readSt, h]
  · intro b64decode r p
    obtain ⟨⟨gc⟩⟩ := r
    cases h : gc p with
    | error e => simp [GithubGetContentsReaderImp.readSt, h]
    | ok cr =>
      cases hc : contentAttr cr <;>
        simp [GithubGetContentsReaderImp.readSt, h, hc]
  · intro disk r p
    obtain ⟨⟨wtd⟩⟩ := r
    simp [GithubCloneRepoReaderImp.readSt, os_path_join_kw_encoding]

/-- C8: `read` is deterministic in the reader's configuration and the
backing-store state: two readers with equal configuration fields, run
against the same backing store on the same path, return the same
result. -/
theorem read_deterministic :
    (∀ (disk : Disk) (root₁ root₂ p : String), root₁ = root₂ →
        LocalReaderImp.read disk (.mk root₁) p = LocalReaderImp.read disk (.mk root₂) p) ∧
    (∀ (client₁ client₂ : String → String → Except Err S3Response)
        (bucket₁ bucket₂ key : String), client₁ = client₂ → bucket₁ = bucket₂ →
        S3ReaderImp.read (.mk client₁ bucket₁) key = S3ReaderImp.read (.mk client₂ bucket₂) key) ∧
    (∀ (b64decode : B64Decode) (gc₁ gc₂ : String → Except Err ContentsResult)
        (path : String), gc₁ = gc₂ →
        GithubGetContentsReaderImp.read b64decode (.mk (.mk gc₁)) path =
          GithubGetContentsReaderImp.read b64decode (.mk (.mk gc₂)) path) ∧
    (∀ (disk : Disk) (wtd₁ wtd₂ path : String), wtd₁ = wtd₂ →
        GithubCloneRepoReaderImp.read disk (.mk (.mk wtd₁)) path =
          GithubCloneRepoReaderImp.read disk (.mk (.mk wtd₂)) path) ∧
    (∀ (t₁ t₂ : TransparentReaderImp) (p : String),
        TransparentReaderImp.read t₁ p = TransparentReaderImp.read t₂ p) := by
  refine ⟨?_, ?_, ?_, ?_, fun _ _ _ => rfl⟩
  · intro disk root₁ root₂ p h
    rw [h]
  · intro client₁ client₂ bucket₁ bucket₂ key hc hb
    rw [hc, hb]
  · intro b64decode gc₁ gc₂ path h
    rw [h]
  · intro disk wtd₁ wtd₂ path h
    rw [h]

/-- Witness for C8 at concrete inputs: each hypothesis is an equality of
concrete configurations, discharged definitionally. -/
theorem read_deterministic_witness :
    LocalReaderImp.read (fun s => if s = "/a/b" then some "x" else none) (.mk "/a") "b" =
      LocalReaderImp.read (fun s => if s = "/a/b" then some "x" else none) (.mk "/a") "b" ∧
    S3ReaderImp.read (.mk (fun _ _ => Except.ok (S3Response.mk [1, 2])) "bk") "k" =
      S3ReaderImp.read (.mk (fun _ _ => Except.ok (S3Response.mk [1, 2])) "bk") "k" ∧
    GithubGetContentsReaderImp.read (fun _ => Except.ok [7])
        (.mk (.mk (fun _ => Except.ok (ContentsResult.file (ContentFile.mk "aGk="))))) "f" =
      GithubGetContentsReaderImp.read (fun _ => Except.ok [7])
        (.mk (.mk (fun _ => Except.ok (ContentsResult.file (ContentFile.mk "aGk="))))) "f" ∧
    GithubCloneRepoReaderImp.read (fun _ => none) (.mk (.mk "/repo")) "f" =
      GithubCloneRepoReaderImp.read (fun _ => none) (.mk (.mk "/repo")) "f" ∧
    TransparentReaderImp.read TransparentReaderImp.mk "p" =
      TransparentReaderImp.read TransparentReaderImp.mk "p" :=
  ⟨read_deterministic.1 _ "/a" "/a" "b" rfl,
   read_deterministic.2.1 _ _ "bk" "bk" "k" rfl rfl,
   read_deterministic.2.2.1 _ _ _ "f" rfl,
   read_deterministic.2.2.2.1 _ "/repo" "/repo" "f" rfl,
   read_deterministic.2.2.2.2 _ _ "p"⟩

/-- C9: calling `read` on the base `ReaderImp` class itself raises
`NotImplementedError` for every path. -/
theorem base_read_not_implemented (r : ReaderImp) (path : String) :
    ReaderImp.read r path = Except.error Err.notImplementedError := rfl

/-- C10: for an absolute path `p`, `os.path.join(root, p)` discards the
configured root and yields `p` itself, so `LocalReader(root).read(p)`
reads the file at `p`, ignoring the root. -/
theorem local_read_absolute (disk : Disk) (root p : String)
    (h : str_startswith p "/" = true) :
    os_path_join root p = p ∧
    LocalReaderImp.read disk (.mk root) p = openRead disk p := by
  have hj : os_path_join root p = p := by simp [os_path_join, h]
  exact ⟨hj, by simp [LocalReaderImp.read, hj]⟩

/-- Witness for C10: a concrete absolute path, with the `startsWith`
hypothesis discharged by evaluation. -/
theorem local_read_absolute_witness :
    os_path_join "/base" "/etc/conf" = "/etc/conf" ∧
    LocalReaderImp.read (fun s => if s = "/etc/conf" then some "secret" else none)
        (.mk "/base") "/etc/conf" =
      openRead (fun s => if s = "/etc/conf" then some "secret" else none) "/etc/conf" :=
  local_read_absolute _ "/base" "/etc/conf" (by decide)

end Rheeder
